import Mathlib

/-!
Shallow embedding of the Waterstones scraping pipeline from
`project_files/waterstones_scraper_headless.py` and
`project_files/waterstones_query_headless.py`.

The browser is modelled as explicit data: a `World` maps each link the driver
may visit to the page content observed there, and the mutable attributes of a
`QueryWaterstonesHeadless` instance are threaded through a `QueryState`.
Python exceptions become `Except ScrapeError`; a bare `except:` handler
becomes a `match` that recovers from every error constructor, while
`except NoSuchElementException:` recovers from `ScrapeError.noSuchElement`
only.  Numeric parsing follows CPython's `int()` / `float()` string grammars
(optional surrounding whitespace, optional sign, underscores strictly between
digits, optional fraction and exponent, `inf` / `infinity` / `nan`).
-/

set_option autoImplicit false

namespace Waterstones

/-- Digit group of a Python numeric literal: underscores may appear only
between digits.  Accumulates the value and the count of digits seen. -/
def pyDigitsAux : List Char → Nat → Nat → Bool → Option (Nat × Nat)
  | [], v, c, afterDigit => if afterDigit then some (v, c) else none
  | ch :: rest, v, c, afterDigit =>
    if ch.isDigit then pyDigitsAux rest (v * 10 + (ch.toNat - 48)) (c + 1) true
    else if ch == '_' && afterDigit then pyDigitsAux rest v c false
    else none

/-- Parse a nonempty digit group (underscore-aware), returning value and
digit count. -/
def pyDigits (l : List Char) : Option (Nat × Nat) := pyDigitsAux l 0 0 false

/-- Optional sign followed by a digit group. -/
def parseSignedDigits : List Char → Option Int
  | '+' :: r => (pyDigits r).map (fun p => (p.1 : Int))
  | '-' :: r => (pyDigits r).map (fun p => -(p.1 : Int))
  | r => (pyDigits r).map (fun p => (p.1 : Int))

/-- Python whitespace for `str.strip()`: space, tab, newline, carriage
return, vertical tab, form feed. -/
def pyIsSpace (c : Char) : Bool :=
  c == ' ' || c == '\t' || c == '\n' || c == '\r' || c == '\x0b' || c == '\x0c'

/-- Python `s.strip()`: remove leading and trailing whitespace. -/
def pyStrip (s : String) : String :=
  String.mk (((s.toList.dropWhile pyIsSpace).reverse.dropWhile pyIsSpace).reverse)

/-- Left-to-right, non-overlapping replacement of a nonempty pattern, with
the remaining input length as structural fuel. -/
def pyReplaceAux (pat rep : List Char) : Nat → List Char → List Char
  | 0, l => l
  | _ + 1, [] => []
  | fuel + 1, c :: rest =>
    if pat.isPrefixOf (c :: rest) then
      rep ++ pyReplaceAux pat rep fuel (rest.drop (pat.length - 1))
    else
      c :: pyReplaceAux pat rep fuel rest

/-- Python `s.replace(pat, rep)`: replace every non-overlapping occurrence,
scanning left to right.  An empty pattern inserts `rep` at every position,
as CPython does. -/
def pyReplace (s pat rep : String) : String :=
  match pat.toList with
  | [] => String.mk (rep.toList ++ s.toList.foldr (fun c acc => c :: (rep.toList ++ acc)) [])
  | p :: ps => String.mk (pyReplaceAux (p :: ps) rep.toList s.toList.length s.toList)

/-- Python `int(s)` for a string argument: surrounding whitespace stripped,
optional sign, digits. -/
def pythonInt (s : String) : Option Int := parseSignedDigits (pyStrip s).toList

/-- Split a character list at the first character satisfying `p`; the second
component is `none` when no such character occurs. -/
def splitFirst (p : Char → Bool) : List Char → List Char × Option (List Char)
  | [] => ([], none)
  | c :: r =>
    if p c then ([], some r)
    else
      let q := splitFirst p r
      (c :: q.1, q.2)

/-- Result of Python `float()`: a finite value, an infinity, or a NaN.  A
finite value is kept exactly as parsed — `num * 10 ^ shift` with the signed
decimal numerator and the decimal exponent unnormalised; the development only
ever compares a parsed float with itself, so no arithmetic on the
representation is needed. -/
inductive PyFloat where
  | finite (num : Int) (shift : Int)
  | inf
  | neginf
  | nan
deriving DecidableEq, Repr

/-- Mantissa of a float literal: `digits`, `digits.`, `.digits` or
`digits.digits`.  Returns the integer numerator and the decimal shift, so the
value is `numerator / 10 ^ shift`. -/
def parseMantissa (l : List Char) : Option (Nat × Nat) :=
  match splitFirst (fun c => c == '.') l with
  | (ip, none) => (pyDigits ip).map (fun p => (p.1, 0))
  | ([], some []) => none
  | ([], some fp) => pyDigits fp
  | (ip, some []) => (pyDigits ip).map (fun p => (p.1, 0))
  | (ip, some fp) => do
    let iv ← pyDigits ip
    let fv ← pyDigits fp
    some (iv.1 * 10 ^ fv.2 + fv.1, fv.2)

/-- Python `float(s)` for a string argument. -/
def pythonFloat (s : String) : Option PyFloat :=
  let t := (pyStrip s).toList
  let signed : Bool × List Char :=
    match t with
    | '+' :: r => (false, r)
    | '-' :: r => (true, r)
    | r => (false, r)
  let neg := signed.1
  let body := signed.2
  let low := body.map Char.toLower
  if low == ['i', 'n', 'f'] || low == ['i', 'n', 'f', 'i', 'n', 'i', 't', 'y'] then
    some (if neg then PyFloat.neginf else PyFloat.inf)
  else if low == ['n', 'a', 'n'] then
    some PyFloat.nan
  else
    match splitFirst (fun c => c == 'e' || c == 'E') body with
    | (mant, eTail) => do
      let ms ← parseMantissa mant
      let e ← match eTail with
        | none => some (0 : Int)
        | some ex => parseSignedDigits ex
      let d : Int := e - (ms.2 : Int)
      some (PyFloat.finite (if neg then -(ms.1 : Int) else (ms.1 : Int)) d)

/-- Python slice `s[-n:]`: the last `n` characters, or all of `s` when it is
shorter than `n`. -/
def pySliceLast (n : Nat) (s : String) : String :=
  String.mk (s.toList.drop (s.toList.length - n))

/-- Python `s.strip(c)` for a one-character strip set: removes every leading
and trailing occurrence of `c`. -/
def pyStripChar (c : Char) (s : String) : String :=
  String.mk (((s.toList.dropWhile (fun a => a == c)).reverse.dropWhile
    (fun a => a == c)).reverse)

/-- A cell of the pandas DataFrame: the Python value stored there. -/
inductive PyVal where
  | vStr (s : String)
  | vInt (n : Int)
  | vFloat (f : PyFloat)
  | vNone
deriving DecidableEq, Repr

/-- Whether a cell holds a Python `str`. -/
def PyVal.isStr : PyVal → Bool
  | .vStr _ => true
  | _ => false

/-- Python `str()` of a cell value.  A finite float is rendered in an
exponent form from its parsed representation rather than CPython's
shortest-round-trip repr; nothing below depends on the rendered text of a
float, only on the result being a string. -/
def pyStr : PyVal → String
  | .vStr s => s
  | .vInt n => toString n
  | .vFloat (.finite num shift) => toString num ++ "e" ++ toString shift
  | .vFloat .inf => "inf"
  | .vFloat .neginf => "-inf"
  | .vFloat .nan => "nan"
  | .vNone => "None"

/-- Inject an optional string (a Selenium text or attribute value that may be
absent) into a DataFrame cell. -/
def optStrVal : Option String → PyVal
  | some s => PyVal.vStr s
  | none => PyVal.vNone

/-- The Python exceptions the pipeline can raise: Selenium's
`NoSuchElementException` from `find_element`, a `JavascriptException` from
running a script against a `null` element, an `AttributeError` from calling a
method on `None`, and `ValueError` from `int()` / `float()` (the spec's
ParseError). -/
inductive ScrapeError where
  | noSuchElement
  | javascriptError
  | attributeError
  | parseError (s : String)
deriving DecidableEq, Repr

/-- What `display_all_results` observes on a results page: the text of the
"N of M" page-count indicator (when that element exists) and the "show more"
button (when that element exists, with its `is_displayed()` flag). -/
structure ResultsPage where
  pageIndicator : Option String
  showMore : Option Bool
deriving DecidableEq, Repr

/-- A results page as seen by `get_all_book_links_from_page`: the scrolling
state plus the `search-results-list` container.  `container = none` means the
element is absent; otherwise each child block carries its first `<a>` tag
(`none` when the block has no anchor) with that anchor's `href` attribute. -/
structure BookResultsPage where
  results : ResultsPage
  container : Option (List (Option (Option String)))
deriving DecidableEq, Repr

/-- The search-results page as seen by `get_language_filter_page_links`: each
filter-bar header with its text and, when the header has a next sibling, the
`href` attributes of the anchors inside that sibling container. -/
structure SearchPage where
  filterSections : List (String × Option (List (Option String)))
deriving DecidableEq, Repr

/-- An item detail page: its URL and the elements the record extractor
reads.  `none` for a field means `find_element` raises; `imageElem` carries
the `src` attribute, itself possibly `None`. -/
structure ItemPage where
  url : String
  authorElem : Option String
  titleElem : Option String
  priceElem : Option String
  imageElem : Option (Option String)
deriving DecidableEq, Repr

/-- A language-filtered results page: the language banner text (when the
element exists), the book-list content, and the URL the driver reports as
`current_url` after navigating here. -/
structure LanguagePage where
  languageLabel : Option String
  books : BookResultsPage
  currentUrl : String
deriving DecidableEq, Repr

/-- The environment of one query run: the capture time `time.ctime()` and the
page the driver observes at each language link and at each item link. -/
structure World where
  now : String
  languagePages : Option String → LanguagePage
  itemPages : Option String → ItemPage

/-- One row of the result DataFrame, column for column. -/
structure Row where
  id : PyVal
  timestamp : PyVal
  author : PyVal
  title : PyVal
  language : PyVal
  price : PyVal
  image_link : PyVal
deriving DecidableEq, Repr

/-- Whether every cell of a row holds a string. -/
def Row.allStr (r : Row) : Bool :=
  r.id.isStr && r.timestamp.isStr && r.author.isStr && r.title.isStr &&
  r.language.isStr && r.price.isStr && r.image_link.isStr

/-- The mutable attributes of a `QueryWaterstonesHeadless` instance. -/
structure QueryState where
  query : Option String
  list_of_language_page_links : List (Option String)
  list_of_book_links : List (Option String)
  language_filtered_DataFrame : List Row
deriving DecidableEq, Repr

/-- Attribute values set by `__init__`. -/
def QueryState.init : QueryState := ⟨none, [], [], []⟩

/-- Environment of `search`: whether the search-bar element is found and
whether `send_keys` raises. -/
structure SearchEnv where
  searchBarPresent : Bool
  sendKeysRaises : Bool
deriving DecidableEq, Repr

/-- Observable outcome of a `search` call that returned normally: either the
query was submitted, or the bare `except:` handler ran and printed
`"Invalid query input."`. -/
inductive SearchOutcome where
  | submitted
  | invalidQueryPrinted
deriving DecidableEq, Repr

/-- `QueryWaterstonesHeadless.search`: stores the normalised query
(spaces to underscores, lowercased), finds and clicks the search bar, then
types and submits inside `try: ... except: print("Invalid query input.")`. -/
def search (env : SearchEnv) (query : String) (s : QueryState) :
    QueryState × Except ScrapeError SearchOutcome :=
  let s' := { s with query := some ((pyReplace query " " "_").toLower) }
  if env.searchBarPresent then
    (s', if env.sendKeysRaises then .ok .invalidQueryPrinted else .ok .submitted)
  else
    (s', .error .noSuchElement)

/-- The `for filter in search_filters` loop: `language_tag` starts as `None`
and is overwritten by every header whose text is `"LANGUAGE"`, so the last
match wins. -/
def lastLanguageTag (sections : List (String × Option (List (Option String)))) :
    Option (String × Option (List (Option String))) :=
  sections.foldl (fun acc f => if f.1 == "LANGUAGE" then some f else acc) none

/-- `QueryWaterstonesHeadless.get_language_filter_page_links`: finds the
LANGUAGE filter header, takes its next sibling via `execute_script`, appends
every anchor's `href` to `self.list_of_language_page_links`, then pops the
last entry when the list exceeds six.  When no header matches, the script
runs against `null` and raises; when the header has no sibling, the
`find_elements` call on `None` raises. -/
def get_language_filter_page_links (page : SearchPage) (s : QueryState) :
    QueryState × Except ScrapeError Unit :=
  match lastLanguageTag page.filterSections with
  | none => (s, .error .javascriptError)
  | some (_, none) => (s, .error .attributeError)
  | some (_, some anchors) =>
    let links := s.list_of_language_page_links ++ anchors
    let links := if links.length > 6 then links.dropLast else links
    ({ s with list_of_language_page_links := links }, .ok ())

/-- Cycle counts observed by `display_all_results`: how many scroll-to-bottom
steps ran and how many times the "show more" button was actually clicked. -/
structure RevealTrace where
  scrolls : Nat
  clicks : Nat
deriving DecidableEq, Repr

/-- `WaterstonesScraperHeadless.click_show_more`: finds the button (raising
when absent) and clicks it only when `is_displayed()`.  Returns whether a
click happened. -/
def click_show_more (p : ResultsPage) : Except ScrapeError Bool :=
  match p.showMore with
  | none => .error .noSuchElement
  | some displayed => .ok displayed

/-- The `while page_counter <= number_of_pages_integer` body, with the number
of remaining iterations as fuel: scroll to the bottom, call
`click_show_more`, pause. -/
def revealLoop (p : ResultsPage) : Nat → RevealTrace → RevealTrace × Except ScrapeError Unit
  | 0, t => (t, .ok ())
  | fuel + 1, t =>
    let t' : RevealTrace := ⟨t.scrolls + 1, t.clicks⟩
    match click_show_more p with
    | .error e => (t', .error e)
    | .ok clicked =>
      revealLoop p fuel (if clicked then ⟨t'.scrolls, t'.clicks + 1⟩ else t')

/-- `WaterstonesScraperHeadless.display_all_results`: reads the "N of M"
indicator, parses `int(text.replace('of', ''))`, and runs the reveal loop for
`page_count + 1` iterations.  The surrounding
`except NoSuchElementException: pass` recovers a missing indicator and a
missing "show more" button; a `ValueError` from `int()` propagates. -/
def display_all_results (p : ResultsPage) : Except ScrapeError RevealTrace :=
  match p.pageIndicator with
  | none => .ok ⟨0, 0⟩
  | some txt =>
    match pythonInt (pyReplace txt "of" "") with
    | none => .error (.parseError (pyReplace txt "of" ""))
    | some n =>
      match revealLoop p (n + 1).toNat ⟨0, 0⟩ with
      | (t, .ok _) => .ok t
      | (t, .error .noSuchElement) => .ok t
      | (t, .error e) => (fun _ => .error e) t

/-- The `for book in book_list` loop of `get_all_book_links_from_page`:
each child block's first anchor href is appended; a block without an anchor
raises, keeping the links appended so far. -/
def collectBooks : List (Option (Option String)) → List (Option String) →
    List (Option String) × Except ScrapeError Unit
  | [], acc => (acc, .ok ())
  | none :: _, acc => (acc, .error .noSuchElement)
  | some href :: rest, acc => collectBooks rest (acc ++ [href])

/-- `QueryWaterstonesHeadless.get_all_book_links_from_page`: resets
`self.list_of_book_links` to `[]`, runs `display_all_results`, locates the
`search-results-list` container (raising when absent), and collects each
child block's first anchor href. -/
def get_all_book_links_from_page (p : BookResultsPage) (s : QueryState) :
    QueryState × Except ScrapeError Unit :=
  let s0 := { s with list_of_book_links := ([] : List (Option String)) }
  match display_all_results p.results with
  | .error e => (s0, .error e)
  | .ok _ =>
    match p.container with
    | none => (s0, .error .noSuchElement)
    | some blocks =>
      match collectBooks blocks [] with
      | (links, res) => ({ s0 with list_of_book_links := links }, res)

/-- `QueryWaterstonesHeadless.get_language_name`: the text of the language
banner element, raising when the element is absent. -/
def get_language_name (lp : LanguagePage) : Except ScrapeError String :=
  match lp.languageLabel with
  | none => .error .noSuchElement
  | some t => .ok t

/-- `WaterstonesScraperHeadless.get_author`. -/
def get_author (p : ItemPage) : Except ScrapeError String :=
  match p.authorElem with
  | none => .error .noSuchElement
  | some t => .ok t

/-- `WaterstonesScraperHeadless.get_title`. -/
def get_title (p : ItemPage) : Except ScrapeError String :=
  match p.titleElem with
  | none => .error .noSuchElement
  | some t => .ok t

/-- `WaterstonesScraperHeadless.get_ISBN`: `int(current_url[-13:])`;
a `ValueError` from `int()` is the spec's ParseError. -/
def get_ISBN (p : ItemPage) : Except ScrapeError Int :=
  match pythonInt (pySliceLast 13 p.url) with
  | some n => .ok n
  | none => .error (.parseError (pySliceLast 13 p.url))

/-- `WaterstonesScraperHeadless.get_price`: the price element's text with
`'£'` stripped from both ends, passed to `float()`; a `ValueError` is the
spec's ParseError. -/
def get_price (p : ItemPage) : Except ScrapeError PyFloat :=
  match p.priceElem with
  | none => .error .noSuchElement
  | some t =>
    match pythonFloat (pyStripChar '£' t) with
    | some v => .ok v
    | none => .error (.parseError (pyStripChar '£' t))

/-- `WaterstonesScraperHeadless.get_image_link`: finds the cover-image
element (raising when absent) and reads its `src` attribute, which may be
`None`. -/
def get_image_link (p : ItemPage) : Except ScrapeError (Option String) :=
  match p.imageElem with
  | none => .error .noSuchElement
  | some src => .ok src

/-- The body of the `for book_link in self.list_of_book_links[:1]` loop in
`create_DataFrame_of_page_data`: navigate to the link and build the
`book_dict` row (Language is `None` here; it is assigned by the caller). -/
def scrape_book (w : World) (link : Option String) : Except ScrapeError Row := do
  let p := w.itemPages link
  let isbn ← get_ISBN p
  let author ← get_author p
  let title ← get_title p
  let price ← get_price p
  let image ← get_image_link p
  pure { id := .vInt isbn, timestamp := .vStr w.now, author := .vStr author,
         title := .vStr title, language := .vNone, price := .vFloat price,
         image_link := optStrVal image }

/-- Scrape each link of a list in order, failing on the first error. -/
def scrapeBooks (w : World) : List (Option String) → Except ScrapeError (List Row)
  | [] => .ok []
  | l :: ls => do
    let r ← scrape_book w l
    let rs ← scrapeBooks w ls
    pure (r :: rs)

/-- `QueryWaterstonesHeadless.create_DataFrame_of_page_data`: iterates over
`self.list_of_book_links[:1]` and concatenates one row per visited link onto
an initially empty page DataFrame. -/
def create_DataFrame_of_page_data (w : World) (s : QueryState) :
    Except ScrapeError (List Row) :=
  scrapeBooks w (s.list_of_book_links.take 1)

/-- The two `try` blocks at the top of each iteration of
`get_DataFrame_of_language_filtered_query_results`: run
`get_all_book_links_from_page`, and on any exception replace
`self.list_of_book_links` with `[driver.current_url]`. -/
def step_book_state (w : World) (link : Option String) (s : QueryState) : QueryState :=
  let lp := w.languagePages link
  match get_all_book_links_from_page lp.books s with
  | (s1, .ok _) => s1
  | (s1, .error _) => { s1 with list_of_book_links := [some lp.currentUrl] }

/-- One iteration of the `for language_link in self.list_of_language_page_links`
loop: navigate to the language page, read the language name (`None` on any
exception), gather the book links (falling back to the current URL on any
exception), build the page DataFrame, overwrite its Language column, and
concatenate it onto `self.language_filtered_DataFrame`. -/
def get_DataFrame_step (w : World) (link : Option String) (s : QueryState) :
    QueryState × Except ScrapeError Unit :=
  let lp := w.languagePages link
  let language_name : Option String :=
    match get_language_name lp with
    | .ok t => some t
    | .error _ => none
  let s2 := step_book_state w link s
  match create_DataFrame_of_page_data w s2 with
  | .error e => (s2, .error e)
  | .ok rows =>
    let tagged := rows.map (fun r => { r with language := optStrVal language_name })
    ({ s2 with language_filtered_DataFrame := s2.language_filtered_DataFrame ++ tagged },
     .ok ())

/-- The full language-page loop; an exception in one iteration aborts the
remaining iterations. -/
def get_DataFrame_loop (w : World) : List (Option String) → QueryState →
    QueryState × Except ScrapeError Unit
  | [], s => (s, .ok ())
  | link :: rest, s =>
    match get_DataFrame_step w link s with
    | (s', .ok _) => get_DataFrame_loop w rest s'
    | (s', .error e) => (s', .error e)

/-- Pandas `astype(str)` applied to one row: every cell becomes the string
`str(value)`. -/
def astypeStr (r : Row) : Row :=
  ⟨.vStr (pyStr r.id), .vStr (pyStr r.timestamp), .vStr (pyStr r.author),
   .vStr (pyStr r.title), .vStr (pyStr r.language), .vStr (pyStr r.price),
   .vStr (pyStr r.image_link)⟩

/-- `QueryWaterstonesHeadless.get_DataFrame_of_language_filtered_query_results`:
runs the language-page loop and returns
`self.language_filtered_DataFrame.astype(str)`.  The coerced copy is only the
return value; the attribute keeps the uncoerced rows. -/
def get_DataFrame_of_language_filtered_query_results (w : World) (s : QueryState) :
    QueryState × Except ScrapeError (List Row) :=
  match get_DataFrame_loop w s.list_of_language_page_links s with
  | (s', .ok _) => (s', .ok (s'.language_filtered_DataFrame.map astypeStr))
  | (s', .error e) => (s', .error e)

/-- `QueryWaterstonesHeadless.save_df_as_csv`: the rows written to the .csv
file are exactly those of `self.language_filtered_DataFrame`; directory and
path handling are outside the model. -/
def save_df_as_csv (s : QueryState) : List Row := s.language_filtered_DataFrame

/-! ### Concrete fixtures used by witnesses and counterexamples -/

/-- An item detail page on which every extractor succeeds. -/
def itemA : ItemPage :=
  { url := "https://www.waterstones.com/book/blindness/9780099573586"
    authorElem := some "Jose Saramago"
    titleElem := some "Blindness"
    priceElem := some "£7.99"
    imageElem := some (some "https://cdn.example/9780099573586.jpg") }

/-- An item detail page whose price text is a bare currency symbol. -/
def itemBadPrice : ItemPage :=
  { url := "https://www.waterstones.com/book/ensaio/9789896602291"
    authorElem := some "Jose Saramago"
    titleElem := some "Ensaio sobre a Cegueira"
    priceElem := some "£"
    imageElem := some (some "https://cdn.example/9789896602291.jpg") }

/-- A language page with no language banner and a one-book results list. -/
def langA : LanguagePage :=
  { languageLabel := none
    books := { results := { pageIndicator := none, showMore := some true }
               container := some [some (some "https://item/A")] }
    currentUrl := "https://www.waterstones.com/search/lang/A" }

/-- A language page whose results container is absent (the single-item
case): the driver has been bounced straight to the item detail page. -/
def langB : LanguagePage :=
  { languageLabel := some "English"
    books := { results := { pageIndicator := none, showMore := some true }
               container := none }
    currentUrl := "https://www.waterstones.com/book/blindness/9780099573586" }

/-- World for the fixtures built on `langA` and `itemA`. -/
def w0 : World :=
  { now := "Mon Oct 12 12:00:00 2026"
    languagePages := fun _ => langA
    itemPages := fun _ => itemA }

/-- World whose only item page carries the malformed price text. -/
def wBad : World :=
  { now := "Mon Oct 12 12:00:00 2026"
    languagePages := fun _ => langA
    itemPages := fun _ => itemBadPrice }

/-- World for the single-item fallback: the results container is absent and
the current URL resolves to `itemA`. -/
def wFallback : World :=
  { now := "Mon Oct 12 12:00:00 2026"
    languagePages := fun _ => langB
    itemPages := fun _ => itemA }

/-- State after one language link has been discovered. -/
def s0 : QueryState :=
  { QueryState.init with list_of_language_page_links := [some "https://lang/L"] }

/-- The row extracted from `itemA` before the Language column is assigned. -/
def rowA0 : Row :=
  ⟨.vInt 9780099573586, .vStr "Mon Oct 12 12:00:00 2026", .vStr "Jose Saramago",
   .vStr "Blindness", .vNone, .vFloat (.finite 799 (-2)),
   .vStr "https://cdn.example/9780099573586.jpg"⟩

/-- Seven anchors, as when the trailing "show less" control is present. -/
def anchors7 : List (Option String) :=
  [some "https://l/1", some "https://l/2", some "https://l/3", some "https://l/4",
   some "https://l/5", some "https://l/6", some "https://l/7"]

/-- Five anchors, as for a query with five language facet values. -/
def anchors5 : List (Option String) :=
  [some "https://l/1", some "https://l/2", some "https://l/3", some "https://l/4",
   some "https://l/5"]

/-- A filter bar whose LANGUAGE section yields `anchors7`. -/
def page7 : SearchPage := ⟨[("FORMAT", some []), ("LANGUAGE", some anchors7)]⟩

/-- A filter bar whose LANGUAGE section yields `anchors5`. -/
def page5 : SearchPage := ⟨[("LANGUAGE", some anchors5)]⟩

/-! ### Helper lemmas -/

/-- The `for` loop of `lastLanguageTag` leaves the accumulator untouched when
no header text matches. -/
theorem lastLanguageTag_eq_none
    (sections : List (String × Option (List (Option String))))
    (h : ∀ f ∈ sections, f.1 ≠ "LANGUAGE") :
    lastLanguageTag sections = none := by
  have aux : ∀ (l : List (String × Option (List (Option String))))
      (acc : Option (String × Option (List (Option String)))),
      (∀ f ∈ l, f.1 ≠ "LANGUAGE") →
      l.foldl (fun acc f => if f.1 == "LANGUAGE" then some f else acc) acc = acc := by
    intro l
    induction l with
    | nil => intro acc _; rfl
    | cons f fs ih =>
      intro acc hall
      have hf : f.1 ≠ "LANGUAGE" := hall f (List.mem_cons_self f fs)
      have hfs : ∀ g ∈ fs, g.1 ≠ "LANGUAGE" := fun g hg => hall g (List.mem_cons_of_mem f hg)
      have hb : (f.1 == "LANGUAGE") = false := by simp [hf]
      simp only [List.foldl_cons, hb, Bool.false_eq_true, if_false]
      exact ih acc hfs
  exact aux sections none h

/-- A match on `get_language_name` recovering every error with `none` just
returns the banner field. -/
theorem language_name_recover (lp : LanguagePage) :
    (match get_language_name lp with
      | .ok t => some t
      | .error _ => none) = lp.languageLabel := by
  rcases h : lp.languageLabel with _ | t <;> simp [get_language_name, h]

/-- With the "show more" button present, the reveal loop runs its full fuel,
scrolling every iteration and clicking exactly when the button is displayed. -/
theorem revealLoop_showMore (p : ResultsPage) (d : Bool) (hs : p.showMore = some d) :
    ∀ (fuel : Nat) (t : RevealTrace),
      revealLoop p fuel t =
        (⟨t.scrolls + fuel, t.clicks + (if d then fuel else 0)⟩, Except.ok ()) := by
  intro fuel
  induction fuel with
  | zero => intro t; simp [revealLoop]
  | succ n ih =>
    intro t
    have hc : click_show_more p = Except.ok d := by
      unfold click_show_more
      rw [hs]
    rcases d with _ | _
    · simp only [revealLoop, hc, Bool.false_eq_true, if_false, ih,
        Prod.mk.injEq, RevealTrace.mk.injEq]
      exact ⟨⟨by omega, trivial⟩, trivial⟩
    · simp only [revealLoop, hc, if_true, ih, Prod.mk.injEq, RevealTrace.mk.injEq]
      exact ⟨⟨by omega, by omega⟩, trivial⟩

/-- `get_all_book_links_from_page` touches only `list_of_book_links`. -/
theorem get_all_book_links_fst_eq (p : BookResultsPage) (s : QueryState) :
    (get_all_book_links_from_page p s).1 =
      { s with list_of_book_links :=
          (get_all_book_links_from_page p s).1.list_of_book_links } := by
  unfold get_all_book_links_from_page
  rcases hd : display_all_results p.results with e | t
  · rfl
  · rcases hc : p.container with _ | blocks
    · rfl
    · rcases hb : collectBooks blocks [] with ⟨links, res⟩
      rfl

/-- The book list produced by `get_all_book_links_from_page` is independent
of the incoming state: the method resets `self.list_of_book_links` first. -/
theorem get_all_book_links_links_indep (p : BookResultsPage) (s s' : QueryState) :
    (get_all_book_links_from_page p s).1.list_of_book_links =
      (get_all_book_links_from_page p s').1.list_of_book_links := by
  unfold get_all_book_links_from_page
  rcases hd : display_all_results p.results with e | t
  · rfl
  · rcases hc : p.container with _ | blocks
    · rfl
    · rcases hb : collectBooks blocks [] with ⟨links, res⟩
      rfl

/-- The accumulated DataFrame survives `step_book_state` unchanged. -/
theorem step_book_state_df (w : World) (link : Option String) (s : QueryState) :
    (step_book_state w link s).language_filtered_DataFrame =
      s.language_filtered_DataFrame := by
  unfold step_book_state
  rcases h : get_all_book_links_from_page (w.languagePages link).books s with ⟨s1, res⟩
  simp only [h]
  have h2 := get_all_book_links_fst_eq (w.languagePages link).books s
  rw [h] at h2
  dsimp only at h2
  rcases res with e | u
  all_goals
    show s1.language_filtered_DataFrame = s.language_filtered_DataFrame
    rw [h2]

/-- A fully extractable item page yields exactly the expected `book_dict`
row (with Language still `None`). -/
theorem scrape_book_ok (w : World) (l : Option String) (isbn : Int)
    (author title ptext : String) (pv : PyFloat) (img : Option String)
    (hisbn : pythonInt (pySliceLast 13 (w.itemPages l).url) = some isbn)
    (ha : (w.itemPages l).authorElem = some author)
    (ht : (w.itemPages l).titleElem = some title)
    (hp : (w.itemPages l).priceElem = some ptext)
    (hpf : pythonFloat (pyStripChar '£' ptext) = some pv)
    (him : (w.itemPages l).imageElem = some img) :
    scrape_book w l = Except.ok
      { id := .vInt isbn, timestamp := .vStr w.now, author := .vStr author,
        title := .vStr title, language := .vNone, price := .vFloat pv,
        image_link := optStrVal img } := by
  unfold scrape_book get_ISBN get_author get_title get_price get_image_link
  simp only [hisbn, ha, ht, hp, hpf, him]
  rfl

/-! ### Claim theorems -/

/-- C1 (amended claim): when the search bar is found but typing/submitting the
query fails, `search` swallows the exception inside its bare `except:`
handler, prints "Invalid query input.", stores the normalised query, and
returns normally; no SearchError (or any error) propagates to the caller. -/
theorem search_sendKeys_failure_suppressed (env : SearchEnv) (query : String)
    (s : QueryState) (hbar : env.searchBarPresent = true)
    (hraise : env.sendKeysRaises = true) :
    (search env query s).2 = Except.ok SearchOutcome.invalidQueryPrinted ∧
    (search env query s).1.query = some ((pyReplace query " " "_").toLower) := by
  unfold search
  rw [hbar, hraise]
  exact ⟨rfl, rfl⟩

/-- C1 witness: the amended claim at a concrete failing submission. -/
theorem search_sendKeys_failure_suppressed_inst :
    (search ⟨true, true⟩ "Jose Saramago" QueryState.init).2 =
      Except.ok SearchOutcome.invalidQueryPrinted ∧
    (search ⟨true, true⟩ "Jose Saramago" QueryState.init).1.query =
      some ((pyReplace "Jose Saramago" " " "_").toLower) :=
  search_sendKeys_failure_suppressed ⟨true, true⟩ "Jose Saramago" QueryState.init rfl rfl

/-- C1 counterexample to the claim as stated: with the submission action
failing, `search` does not raise any error at all — it returns `Except.ok`
with only the printed diagnostic, so no SearchError propagates. -/
theorem search_sendKeys_failure_returns_ok :
    (search ⟨true, true⟩ "jose saramago" QueryState.init).2 =
      Except.ok SearchOutcome.invalidQueryPrinted := rfl

/-- C2 (amended claim): when no filter-bar header has text "LANGUAGE",
`get_language_filter_page_links` raises (the next-sibling script runs against
a `null` element) instead of returning an empty sequence; the link list is
left unchanged. -/
theorem language_links_missing_header_raises (page : SearchPage) (s : QueryState)
    (h : ∀ f ∈ page.filterSections, f.1 ≠ "LANGUAGE") :
    get_language_filter_page_links page s = (s, Except.error ScrapeError.javascriptError) := by
  unfold get_language_filter_page_links
  rw [lastLanguageTag_eq_none page.filterSections h]

/-- C2 witness: the amended claim at a concrete filter bar without a
LANGUAGE header. -/
theorem language_links_missing_header_raises_inst :
    get_language_filter_page_links ⟨[("PUBLICATION DATE", some [some "y"])]⟩ QueryState.init =
      (QueryState.init, Except.error ScrapeError.javascriptError) :=
  language_links_missing_header_raises ⟨[("PUBLICATION DATE", some [some "y"])]⟩
    QueryState.init (by decide)

/-- C2 counterexample to the claim as stated: on a loaded page whose filter
bar has PRICE and FORMAT headers but no LANGUAGE header, discovery raises an
error rather than returning normally with an empty sequence. -/
theorem language_links_missing_header_raises_concrete :
    get_language_filter_page_links ⟨[("PRICE", some [some "x"]), ("FORMAT", some [])]⟩
        QueryState.init =
      (QueryState.init, Except.error ScrapeError.javascriptError) := rfl

/-- C6: starting from an empty accumulated list, language-link discovery
returns the facet anchors with the last dropped exactly when more than six
were collected: seven anchors yield the first six, five yield all five. -/
theorem language_link_count_policy (page : SearchPage) (s : QueryState)
    (t : String) (anchors : List (Option String))
    (hs : s.list_of_language_page_links = [])
    (ht : lastLanguageTag page.filterSections = some (t, some anchors)) :
    (get_language_filter_page_links page s).2 = Except.ok () ∧
    (get_language_filter_page_links page s).1.list_of_language_page_links =
      (if anchors.length > 6 then anchors.dropLast else anchors) ∧
    (anchors.length = 7 →
      (get_language_filter_page_links page s).1.list_of_language_page_links.length = 6 ∧
      (get_language_filter_page_links page s).1.list_of_language_page_links =
        anchors.take 6) ∧
    (anchors.length ≤ 6 →
      (get_language_filter_page_links page s).1.list_of_language_page_links = anchors) := by
  have key : get_language_filter_page_links page s =
      ({ s with list_of_language_page_links :=
          if anchors.length > 6 then anchors.dropLast else anchors }, Except.ok ()) := by
    unfold get_language_filter_page_links
    rw [ht]
    simp only [hs, List.nil_append]
  rw [key]
  refine ⟨rfl, rfl, ?_, ?_⟩
  · intro h7
    have hgt : anchors.length > 6 := by omega
    constructor
    · show (if anchors.length > 6 then anchors.dropLast else anchors).length = 6
      rw [if_pos hgt, List.length_dropLast, h7]
    · show (if anchors.length > 6 then anchors.dropLast else anchors) = anchors.take 6
      rw [if_pos hgt, List.dropLast_eq_take, h7]
  · intro h6
    show (if anchors.length > 6 then anchors.dropLast else anchors) = anchors
    rw [if_neg (by omega)]

/-- C6 witness: the policy at a concrete seven-anchor facet container. -/
theorem language_link_count_policy_inst :
    (get_language_filter_page_links page7 QueryState.init).2 = Except.ok () ∧
    (get_language_filter_page_links page7 QueryState.init).1.list_of_language_page_links =
      (if anchors7.length > 6 then anchors7.dropLast else anchors7) ∧
    (anchors7.length = 7 →
      (get_language_filter_page_links page7 QueryState.init).1.list_of_language_page_links.length = 6 ∧
      (get_language_filter_page_links page7 QueryState.init).1.list_of_language_page_links =
        anchors7.take 6) ∧
    (anchors7.length ≤ 6 →
      (get_language_filter_page_links page7 QueryState.init).1.list_of_language_page_links =
        anchors7) :=
  language_link_count_policy page7 QueryState.init "LANGUAGE" anchors7 rfl rfl


/-- C10: `get_language_filter_page_links` is not idempotent on instance
state — a second call appends the second page's anchors after the first
call's links and applies the drop-last-when-more-than-six rule to the
combined list — while `get_all_book_links_from_page` resets
`self.list_of_book_links`, so its book list is independent of prior state. -/
theorem language_links_append_book_links_reset
    (p1 p2 : SearchPage) (s : QueryState) (t1 t2 : String)
    (a1 a2 L1 : List (Option String))
    (h0 : s.list_of_language_page_links = [])
    (h1 : lastLanguageTag p1.filterSections = some (t1, some a1))
    (h2 : lastLanguageTag p2.filterSections = some (t2, some a2))
    (hL1 : (get_language_filter_page_links p1 s).1.list_of_language_page_links = L1)
    (pb : BookResultsPage) (sb sb' : QueryState) :
    (get_language_filter_page_links p2
        (get_language_filter_page_links p1 s).1).1.list_of_language_page_links =
      (if (L1 ++ a2).length > 6 then (L1 ++ a2).dropLast else L1 ++ a2) ∧
    L1 = (if a1.length > 6 then a1.dropLast else a1) ∧
    (get_all_book_links_from_page pb sb).1.list_of_book_links =
      (get_all_book_links_from_page pb sb').1.list_of_book_links := by
  have k1 : get_language_filter_page_links p1 s =
      ({ s with list_of_language_page_links :=
          if a1.length > 6 then a1.dropLast else a1 }, Except.ok ()) := by
    unfold get_language_filter_page_links
    rw [h1]
    simp only [h0, List.nil_append]
  have hA : L1 = (if a1.length > 6 then a1.dropLast else a1) := by
    rw [← hL1, k1]
  refine ⟨?_, hA, get_all_book_links_links_indep pb sb sb'⟩
  rw [k1]
  unfold get_language_filter_page_links
  rw [h2]
  dsimp only
  rw [hA]

/-- C10 witness: two successive discovery calls on concrete filter bars, and
the book-list reset at a concrete results page from two different states. -/
theorem language_links_append_book_links_reset_inst :
    (get_language_filter_page_links page7
        (get_language_filter_page_links page5 QueryState.init).1).1.list_of_language_page_links =
      (if (anchors5 ++ anchors7).length > 6 then (anchors5 ++ anchors7).dropLast
        else anchors5 ++ anchors7) ∧
    anchors5 = (if anchors5.length > 6 then anchors5.dropLast else anchors5) ∧
    (get_all_book_links_from_page langA.books s0).1.list_of_book_links =
      (get_all_book_links_from_page langA.books QueryState.init).1.list_of_book_links :=
  language_links_append_book_links_reset page5 page7 QueryState.init "LANGUAGE" "LANGUAGE"
    anchors5 anchors7 anchors5 rfl rfl rfl rfl langA.books s0 QueryState.init

/-- C3: with the page-count indicator present and parsing to `page_count`
and the "show more" element present, `display_all_results` performs exactly
`page_count + 1` scroll/click/pause cycles, clicking only when the control is
displayed; with the indicator element absent it performs zero cycles and
returns without error. -/
theorem display_all_results_cycle_count (p p' : ResultsPage) (txt : String)
    (page_count : Nat) (d : Bool)
    (hi : p.pageIndicator = some txt)
    (hn : pythonInt (pyReplace txt "of" "") = some (page_count : Int))
    (hs : p.showMore = some d)
    (hi' : p'.pageIndicator = none) :
    display_all_results p =
      Except.ok ⟨page_count + 1, if d then page_count + 1 else 0⟩ ∧
    display_all_results p' = Except.ok ⟨0, 0⟩ := by
  constructor
  · unfold display_all_results
    simp only [hi, hn]
    have hT : ((page_count : Int) + 1).toNat = page_count + 1 := by omega
    rw [hT, revealLoop_showMore p d hs (page_count + 1) ⟨0, 0⟩]
    dsimp only
    rw [Nat.zero_add, Nat.zero_add]
  · unfold display_all_results
    rw [hi']

/-- C3 witness: a page reporting "of 8" performs nine cycles with nine
clicks; a page with no indicator performs none. -/
theorem display_all_results_cycle_count_inst :
    display_all_results ⟨some "of 8", some true⟩ =
      Except.ok ⟨8 + 1, if true then 8 + 1 else 0⟩ ∧
    display_all_results ⟨none, none⟩ = Except.ok ⟨0, 0⟩ :=
  display_all_results_cycle_count ⟨some "of 8", some true⟩ ⟨none, none⟩ "of 8" 8 true
    rfl (by decide) rfl rfl


/-- C9: `create_DataFrame_of_page_data` slices `self.list_of_book_links[:1]`,
so with a nonempty link list it visits only the first link — the result is
the same as if the list held just that link — and a successful extraction
yields exactly one row regardless of how many links were discovered. -/
theorem only_first_book_link_visited (w : World) (s : QueryState)
    (l : Option String) (rest : List (Option String))
    (h : s.list_of_book_links = l :: rest) :
    create_DataFrame_of_page_data w s =
      create_DataFrame_of_page_data w { s with list_of_book_links := [l] } ∧
    ∀ rows, create_DataFrame_of_page_data w s = Except.ok rows → rows.length = 1 := by
  have key : create_DataFrame_of_page_data w s = scrapeBooks w [l] := by
    unfold create_DataFrame_of_page_data
    rw [h]
    rfl
  constructor
  · rw [key]
    rfl
  · intro rows hr
    rw [key] at hr
    rcases hb : scrape_book w l with e | r
    · simp only [scrapeBooks, hb] at hr
      cases hr
    · simp only [scrapeBooks, hb] at hr
      cases hr
      rfl

/-- C9 witness: with two discovered links, only the first (which resolves to
`itemA`) is visited and one row is produced. -/
theorem only_first_book_link_visited_inst :
    create_DataFrame_of_page_data w0
        { QueryState.init with list_of_book_links := [some "https://item/A", some "https://item/B"] } =
      create_DataFrame_of_page_data w0
        { { QueryState.init with list_of_book_links := [some "https://item/A", some "https://item/B"] } with
            list_of_book_links := [some "https://item/A"] } ∧
    ∀ rows, create_DataFrame_of_page_data w0
        { QueryState.init with list_of_book_links := [some "https://item/A", some "https://item/B"] } =
        Except.ok rows → rows.length = 1 :=
  only_first_book_link_visited w0
    { QueryState.init with list_of_book_links := [some "https://item/A", some "https://item/B"] }
    (some "https://item/A") [some "https://item/B"] rfl


/-- C4: when the first visited item page's price text, after stripping the
currency symbol, fails `float()`, the per-page extraction raises the spec's
ParseError; the error propagates out of the per-language-page step uncaught
and the accumulated table is unchanged — no partial record is appended. -/
theorem malformed_price_parse_error_aborts (w : World) (link : Option String)
    (s : QueryState) (itemLink : Option String) (rest : List (Option String))
    (isbn : Int) (author title ptext : String)
    (hb : (step_book_state w link s).list_of_book_links = itemLink :: rest)
    (hisbn : pythonInt (pySliceLast 13 (w.itemPages itemLink).url) = some isbn)
    (ha : (w.itemPages itemLink).authorElem = some author)
    (ht : (w.itemPages itemLink).titleElem = some title)
    (hp : (w.itemPages itemLink).priceElem = some ptext)
    (hbad : pythonFloat (pyStripChar '£' ptext) = none) :
    (get_DataFrame_step w link s).2 =
      Except.error (ScrapeError.parseError (pyStripChar '£' ptext)) ∧
    (get_DataFrame_step w link s).1.language_filtered_DataFrame =
      s.language_filtered_DataFrame := by
  have hsb : scrape_book w itemLink =
      Except.error (ScrapeError.parseError (pyStripChar '£' ptext)) := by
    unfold scrape_book get_ISBN get_author get_title get_price
    simp only [hisbn, ha, ht, hp, hbad]
    rfl
  have hcreate : create_DataFrame_of_page_data w (step_book_state w link s) =
      Except.error (ScrapeError.parseError (pyStripChar '£' ptext)) := by
    unfold create_DataFrame_of_page_data
    rw [hb]
    show scrapeBooks w [itemLink] = _
    simp only [scrapeBooks, hsb]
    rfl
  unfold get_DataFrame_step
  simp only [hcreate]
  exact ⟨trivial, step_book_state_df w link s⟩

/-- C4 witness: the abort at a concrete item page whose price text is a bare
currency symbol. -/
theorem malformed_price_parse_error_aborts_inst :
    (get_DataFrame_step wBad (some "https://lang/L") QueryState.init).2 =
      Except.error (ScrapeError.parseError (pyStripChar '£' "£")) ∧
    (get_DataFrame_step wBad (some "https://lang/L") QueryState.init).1.language_filtered_DataFrame =
      QueryState.init.language_filtered_DataFrame :=
  malformed_price_parse_error_aborts wBad (some "https://lang/L") QueryState.init
    (some "https://item/A") [] 9789896602291 "Jose Saramago" "Ensaio sobre a Cegueira" "£"
    (by decide) (by decide) rfl rfl rfl (by decide)


/-- C7: when the results container cannot be located on a language page, the
bare `except:` installs `[driver.current_url]` as the book-link list, and the
step appends exactly one record, extracted from the page at the current URL,
to the table — the fallback is taken rather than an error raised. -/
theorem single_item_fallback_one_record (w : World) (link : Option String)
    (s : QueryState) (tr : RevealTrace) (isbn : Int)
    (author title ptext : String) (pv : PyFloat) (img : Option String)
    (hd : display_all_results (w.languagePages link).books.results = Except.ok tr)
    (hc : (w.languagePages link).books.container = none)
    (hisbn : pythonInt (pySliceLast 13
      (w.itemPages (some (w.languagePages link).currentUrl)).url) = some isbn)
    (ha : (w.itemPages (some (w.languagePages link).currentUrl)).authorElem = some author)
    (ht : (w.itemPages (some (w.languagePages link).currentUrl)).titleElem = some title)
    (hp : (w.itemPages (some (w.languagePages link).currentUrl)).priceElem = some ptext)
    (hpf : pythonFloat (pyStripChar '£' ptext) = some pv)
    (him : (w.itemPages (some (w.languagePages link).currentUrl)).imageElem = some img) :
    (get_DataFrame_step w link s).2 = Except.ok () ∧
    (get_DataFrame_step w link s).1.language_filtered_DataFrame =
      s.language_filtered_DataFrame ++
        [({ id := .vInt isbn, timestamp := .vStr w.now, author := .vStr author,
            title := .vStr title,
            language := optStrVal (w.languagePages link).languageLabel,
            price := .vFloat pv, image_link := optStrVal img } : Row)] := by
  have hbl : step_book_state w link s =
      { s with list_of_book_links := [some (w.languagePages link).currentUrl] } := by
    unfold step_book_state get_all_book_links_from_page
    simp only [hd, hc]
  have hrow := scrape_book_ok w (some (w.languagePages link).currentUrl) isbn author title
    ptext pv img hisbn ha ht hp hpf him
  have hcreate : create_DataFrame_of_page_data w (step_book_state w link s) =
      Except.ok [({ id := .vInt isbn, timestamp := .vStr w.now, author := .vStr author,
                    title := .vStr title, language := .vNone, price := .vFloat pv,
                    image_link := optStrVal img } : Row)] := by
    unfold create_DataFrame_of_page_data
    rw [hbl]
    show scrapeBooks w [some (w.languagePages link).currentUrl] = _
    simp only [scrapeBooks, hrow]
    rfl
  unfold get_DataFrame_step
  simp only [hcreate, language_name_recover]
  refine ⟨trivial, ?_⟩
  rw [step_book_state_df]
  rfl

/-- C7 witness: the fallback at a concrete language page with no results
container, whose current URL is the `itemA` detail page. -/
theorem single_item_fallback_one_record_inst :
    (get_DataFrame_step wFallback (some "https://lang/L") QueryState.init).2 = Except.ok () ∧
    (get_DataFrame_step wFallback (some "https://lang/L") QueryState.init).1.language_filtered_DataFrame =
      QueryState.init.language_filtered_DataFrame ++
        [({ id := .vInt 9780099573586, timestamp := .vStr wFallback.now,
            author := .vStr "Jose Saramago", title := .vStr "Blindness",
            language := optStrVal (wFallback.languagePages (some "https://lang/L")).languageLabel,
            price := .vFloat (.finite 799 (-2)),
            image_link := optStrVal (some "https://cdn.example/9780099573586.jpg") } : Row)] :=
  single_item_fallback_one_record wFallback (some "https://lang/L") QueryState.init
    ⟨0, 0⟩ 9780099573586 "Jose Saramago" "Blindness" "£7.99" (.finite 799 (-2))
    (some "https://cdn.example/9780099573586.jpg")
    rfl rfl (by decide) rfl rfl rfl (by decide) rfl

/-- C8: when the language banner cannot be read on a language page, the bare
`except:` substitutes `None`, the step still completes normally (given the
page rows extract), and every row appended from that page has a null
Language cell. -/
theorem null_language_tolerance (w : World) (link : Option String)
    (s : QueryState) (rows : List Row)
    (hl : (w.languagePages link).languageLabel = none)
    (hcr : create_DataFrame_of_page_data w (step_book_state w link s) = Except.ok rows) :
    (get_DataFrame_step w link s).2 = Except.ok () ∧
    (get_DataFrame_step w link s).1.language_filtered_DataFrame =
      s.language_filtered_DataFrame ++
        rows.map (fun r => { r with language := PyVal.vNone }) ∧
    ∀ r ∈ (get_DataFrame_step w link s).1.language_filtered_DataFrame.drop
        s.language_filtered_DataFrame.length, r.language = PyVal.vNone := by
  unfold get_DataFrame_step
  simp only [hcr, language_name_recover, hl]
  have hdf : (step_book_state w link s).language_filtered_DataFrame ++
      rows.map (fun r => { r with language := optStrVal none }) =
      s.language_filtered_DataFrame ++
        rows.map (fun r => { r with language := PyVal.vNone }) := by
    rw [step_book_state_df]
    rfl
  refine ⟨trivial, hdf, ?_⟩
  intro r hr
  rw [hdf] at hr
  rw [List.drop_left] at hr
  rcases List.mem_map.1 hr with ⟨r0, _, heq⟩
  rw [← heq]


/-- C8 witness: null-language tolerance at the concrete bannerless page. -/
theorem null_language_tolerance_inst :
    (get_DataFrame_step w0 (some "https://lang/L") QueryState.init).2 = Except.ok () ∧
    (get_DataFrame_step w0 (some "https://lang/L") QueryState.init).1.language_filtered_DataFrame =
      QueryState.init.language_filtered_DataFrame ++
        [rowA0].map (fun r => { r with language := PyVal.vNone }) ∧
    ∀ r ∈ (get_DataFrame_step w0 (some "https://lang/L")
        QueryState.init).1.language_filtered_DataFrame.drop
        QueryState.init.language_filtered_DataFrame.length,
      r.language = PyVal.vNone :=
  null_language_tolerance w0 (some "https://lang/L") QueryState.init [rowA0] rfl rfl

/-- C5 (amended claim): the table returned by the assembly operation is fully
coerced to strings (`None` becomes the string "None"), but `save_df_as_csv`
writes `self.language_filtered_DataFrame`, to which the `astype(str)` result
was never assigned back, so the persisted table keeps the uncoerced values. -/
theorem returned_table_string_coerced_saved_uncoerced (w : World) (s s' : QueryState)
    (df : List Row)
    (h : get_DataFrame_of_language_filtered_query_results w s = (s', Except.ok df)) :
    (∀ r ∈ df, r.allStr = true) ∧
    save_df_as_csv s' = s'.language_filtered_DataFrame := by
  refine ⟨?_, rfl⟩
  unfold get_DataFrame_of_language_filtered_query_results at h
  rcases hp : get_DataFrame_loop w s.list_of_language_page_links s with ⟨s1, res⟩
  rw [hp] at h
  rcases res with e | u
  · exact absurd (congrArg Prod.snd h) (by simp)
  · have hdf : Except.ok (s1.language_filtered_DataFrame.map astypeStr) = Except.ok df :=
      congrArg Prod.snd h
    injection hdf with hdf2
    rw [← hdf2]
    intro r hr
    rcases List.mem_map.1 hr with ⟨r0, _, heq⟩
    rw [← heq]
    rfl

/-- C5 witness: the amended claim at the concrete one-page run. -/
theorem returned_table_string_coerced_saved_uncoerced_inst :
    (∀ r ∈ (get_DataFrame_of_language_filtered_query_results
        w0 s0).1.language_filtered_DataFrame.map astypeStr, r.allStr = true) ∧
    save_df_as_csv (get_DataFrame_of_language_filtered_query_results w0 s0).1 =
      (get_DataFrame_of_language_filtered_query_results w0 s0).1.language_filtered_DataFrame :=
  returned_table_string_coerced_saved_uncoerced w0 s0
    (get_DataFrame_of_language_filtered_query_results w0 s0).1
    ((get_DataFrame_of_language_filtered_query_results
      w0 s0).1.language_filtered_DataFrame.map astypeStr)
    rfl

/-- C5 counterexample to the claim as stated: on a successful concrete run
the table passed to the CSV writer still holds a non-string cell — the
Language column of the persisted table is `None`, not the string "None". -/
theorem saved_table_not_fully_string_concrete :
    (save_df_as_csv
        (get_DataFrame_of_language_filtered_query_results w0 s0).1).map Row.language =
      [PyVal.vNone] ∧
    PyVal.isStr PyVal.vNone = false ∧
    (get_DataFrame_of_language_filtered_query_results w0 s0).2.toOption.isSome = true :=
  ⟨rfl, rfl, rfl⟩


end Waterstones
